import Mathlib

/-!
Shallow embedding of the Jabba chatbot core: the per-conversation session
store (`src/Session.model.ts`) and the turn dispatcher with its middleware
chain (`src/Chatbot.ts`), together with proofs of the specification claims
about them.

Conventions of the embedding:
* JavaScript numbers that the program only ever treats as integers are
  modelled as `Int`; `Date` timestamps as `Nat` (milliseconds).
* A dynamically attached JavaScript field (one that no class or schema
  declares) is modelled as a `JVal` slot that starts out `undefined`.
* Promise-returning operations that can reject are modelled with `Except`.
-/

namespace Jabba

/-- A JavaScript number-or-undefined slot. A dynamically attached field such
as `messageCount` starts out `undefined`; `NaN` arises from arithmetic on
`undefined` and is absorbing. -/
inductive JVal where
  | jundef : JVal
  | jnan : JVal
  | jnum : Int → JVal
deriving DecidableEq, Repr

/-- JavaScript postfix increment `x++` as it acts on the stored value:
`ToNumber(undefined) = NaN`, `NaN + 1 = NaN`, and `n + 1` on a number. -/
def jsIncr : JVal → JVal
  | JVal.jundef => JVal.jnan
  | JVal.jnan => JVal.jnan
  | JVal.jnum n => JVal.jnum (n + 1)

/-- The persisted document, following `sessionSchema` in `Session.model.ts`:
`conversationId`, `consecutiveNotUnderstand`, `createdAt`, `updatedAt`.
The schema declares no `messageCount` field. -/
structure SessionDoc where
  conversationId : String
  consecutiveNotUnderstand : Int
  createdAt : Option Nat
  updatedAt : Option Nat
deriving DecidableEq, Repr

/-- The backing store: the list of persisted documents, in insertion order.
`findOne` returns the first document whose `conversationId` matches. -/
structure StoreState where
  records : List SessionDoc
deriving DecidableEq, Repr

/-- `SessionModel.findOne({ conversationId })`. -/
def findOne (st : StoreState) (conversationId : String) : Option SessionDoc :=
  st.records.find? (fun d => d.conversationId == conversationId)

/-- The `Session` wrapper class from `Session.model.ts`. Besides the wrapped
`document`, the source attaches two fields dynamically (neither is declared
on the class, and neither exists in the persisted schema):
`_previousNotUnderstand` (written by the dispatcher each turn) and
`messageCount` (incremented by the dispatcher each turn). Both slots are
`undefined` on a freshly constructed wrapper. -/
structure Session where
  document : SessionDoc
  _previousNotUnderstand : JVal
  messageCount : JVal
deriving DecidableEq, Repr

/-- `new Session(res)`: wraps a document; the dynamically attached slots do
not exist yet, i.e. are `undefined`. -/
def mkSession (d : SessionDoc) : Session :=
  { document := d, _previousNotUnderstand := JVal.jundef, messageCount := JVal.jundef }

/-- Getter `get consecutiveNotUnderstand()`. -/
def Session.consecutiveNotUnderstand (s : Session) : Int :=
  s.document.consecutiveNotUnderstand

/-- Setter `set consecutiveNotUnderstand(n)`: stores `Math.min(n, 2)` into
the wrapped document. -/
def Session.setConsecutiveNotUnderstand (s : Session) (n : Int) : Session :=
  { s with document := { s.document with consecutiveNotUnderstand := min n 2 } }

/-- `Session.create(conversationId)`: builds the instance with
`consecutiveNotUnderstand = 0` and `createdAt = updatedAt = new Date()`,
writes it through `SessionModel.create`, and wraps the result. -/
def Session.create (st : StoreState) (conversationId : String) (now : Nat) :
    Session × StoreState :=
  let instanceDoc : SessionDoc :=
    { conversationId := conversationId
      consecutiveNotUnderstand := 0
      createdAt := some now
      updatedAt := some now }
  (mkSession instanceDoc, { records := st.records ++ [instanceDoc] })

/-- `Session.findById(conversationId)`: `findOne`, rejecting with the
source's message when no record exists. -/
def Session.findById (st : StoreState) (conversationId : String) :
    Except String Session :=
  match findOne st conversationId with
  | none => Except.error ("Sersation with id " ++ conversationId ++ " not found.")
  | some d => Except.ok (mkSession d)

/-- `Session.findOrCreateById(conversationId)`: `findOne`; when no record
exists it falls back to `create`, otherwise it wraps the found document. -/
def Session.findOrCreateById (st : StoreState) (conversationId : String) (now : Nat) :
    Session × StoreState :=
  match findOne st conversationId with
  | none => Session.create st conversationId now
  | some d => (mkSession d, st)

/-- The composition the spec describes for `findOrCreateById`: `findById`,
recovering from its not-found rejection by calling `create`. Stated from the
spec's words, to be compared with `Session.findOrCreateById` above. -/
def findOrCreateByIdViaFindById (st : StoreState) (conversationId : String) (now : Nat) :
    Session × StoreState :=
  match Session.findById st conversationId with
  | Except.error _ => Session.create st conversationId now
  | Except.ok s => (s, st)

/-- The `this._doc` that the `pre('save')` hook of `Session.model.ts` reads.
The hook is an arrow function, so `this` is the enclosing module scope (the
CommonJS `exports` object), not the document being saved; the module scope
has no `_doc` property, so the value is `undefined`. -/
def moduleScopeDoc : Option SessionDoc := none

/-- The body of the `pre('save')` hook: when `this._doc` exists it sets that
document's `createdAt` (first time only) and `updatedAt` to `now`. Note the
hook only ever writes to the object `this._doc` denotes — never to the
document actually being saved. -/
def preSaveHookBody (now : Nat) (thisDoc : Option SessionDoc) : Option SessionDoc :=
  match thisDoc with
  | none => none
  | some d =>
      some { d with
              createdAt := (match d.createdAt with
                            | none => some now
                            | some c => some c)
              updatedAt := some now }

/-- `document.save()` at the store level: mongoose runs the `pre('save')`
hook (whose effect lands on `moduleScopeDoc`, i.e. nowhere — see
`preSaveHookBody`), then writes the document's current field values back to
the record with the same `conversationId`. Returns the document as saved. -/
def saveDoc (st : StoreState) (d : SessionDoc) (now : Nat) : SessionDoc × StoreState :=
  let _hookEffect := preSaveHookBody now moduleScopeDoc
  (d, { records := st.records.map (fun r => if r.conversationId == d.conversationId then d else r) })

/-- `session.save()`: saves the wrapped document and returns the same
wrapper (`then(() => this)`). -/
def Session.save (s : Session) (st : StoreState) (now : Nat) : Session × StoreState :=
  let r := saveDoc st s.document now
  ({ s with document := r.1 }, r.2)

/-- Number of records a store holds for a given conversation id. -/
def countRecords (st : StoreState) (conversationId : String) : Nat :=
  (st.records.filter (fun d => d.conversationId == conversationId)).length

/-!
## The middleware chain of `Chatbot.onMessage`

`onMessage` closes over a mutable `currentMiddlewareIndex` shared by every
invocation of `execNextMiddleware` within the turn:

```
const execNextMiddleware = () => {
  const m = this.middlewarePipeline[currentMiddlewareIndex];
  if (m) { currentMiddlewareIndex++; return m(ctx, execNextMiddleware); }
  else   { return Promise.resolve(); }
};
```

For the control-flow claims a middleware is characterised by how many times
it invokes `next` (sequentially, awaiting each call): the pipeline is a
`List Nat` of those counts. The state threaded through is the shared index;
every execution also yields the trace of pipeline indices whose middleware
was invoked, in invocation order.

The source recursion has no structural measure (a middleware may call
`next` any number of times), so the embedding takes a fuel argument that
bounds the *nesting depth* of `execNextMiddleware` calls. Each nested call
enters a middleware at a strictly larger index, so a nesting of depth
`pipeline.length + 1` already runs off the end of the pipeline: with fuel
`pipeline.length + 1` the fuel-exhaustion branch coincides with the
source's "no middleware left" branch and the embedding is exact. All
universal theorems below hold for every fuel.
-/

/-- One middleware's body: invoke `next` (the continuation passed by
`execNextMiddleware`) `k` times in sequence, threading the shared index and
concatenating the traces. -/
def middlewareBody (next : Nat → Nat × List Nat) : Nat → Nat → Nat × List Nat
  | 0, j => (j, [])
  | k + 1, j =>
      let r := next j
      let r2 := middlewareBody next k r.1
      (r2.1, r.2 ++ r2.2)

/-- `execNextMiddleware`: read the middleware at the shared index; if there
is one, advance the index and run it with `execNextMiddleware` itself as
`next`; otherwise resolve immediately. `fuel` bounds the nesting depth. -/
def execNextMiddleware (pipeline : List Nat) : Nat → Nat → Nat × List Nat
  | 0, i => (i, [])
  | fuel + 1, i =>
      match pipeline[i]? with
      | none => (i, [])
      | some k =>
          let r := middlewareBody (execNextMiddleware pipeline fuel) k (i + 1)
          (r.1, i :: r.2)

/-- The trace of one turn's chain execution, starting at index 0, with the
always-sufficient fuel `pipeline.length + 1`. -/
def middlewareTrace (pipeline : List Nat) : List Nat :=
  (execNextMiddleware pipeline (pipeline.length + 1) 0).2

/-!
## The turn dispatcher `Chatbot.onMessage`
-/

/-- `IMongoConfig`. Optional fields are `Option`; `enabled?: boolean` may be
absent, which JavaScript truthiness treats as false. -/
structure IMongoConfig where
  hostname : String
  database : String
  username : Option String := none
  password : Option String := none
  ssl : Option Bool := none
  replicaSetName : Option String := none
  port : Option String := none
  enabled : Option Bool := none

/-- The configured language. -/
inductive Language where
  | fr
  | en

/-- `IChatbotConfig`. -/
structure IChatbotConfig where
  requestToken : String
  connectToken : Option String := none
  language : Language
  mongo : Option IMongoConfig := none

/-- `Chatbot.isMongoEnabled()`: `this.config.mongo && this.config.mongo.enabled
? true : false`, with JavaScript truthiness on the optional `enabled`. -/
def isMongoEnabled (config : IChatbotConfig) : Bool :=
  match config.mongo with
  | none => false
  | some m =>
      match m.enabled with
      | none => false
      | some b => b

/-- An inbound NLU message; the dispatcher only reads `conversationId`. -/
structure Message where
  conversationId : String

/-- The per-turn context of `onMessage`; `session` is unset until the mongo
path resolves one. -/
structure IChatbotContext where
  message : Message
  config : IChatbotConfig
  session : Option Session

/-- The session-store operations the dispatcher can issue in a turn. -/
inductive StoreOp where
  | findOrCreateOp : String → StoreOp
  | saveOp : String → StoreOp
deriving DecidableEq, Repr

/-- The dispatcher's view of the persistence layer: what
`Session.findOrCreateById` resolves to and whether a `save` of a given
document succeeds. Rejections carry the backend's error value. -/
structure Backend where
  findOrCreateRes : String → Except String SessionDoc
  saveRes : SessionDoc → Except String Unit

/-- Everything observable about one `onMessage` turn: the settled value of
the returned promise, the store operations issued, the context as handed to
the middleware chain (in particular `ctx.session` as the first middleware
observes it), and the trace of middleware invocations. -/
structure TurnOutcome where
  result : Except String Unit
  ops : List StoreOp
  chainCtx : Option IChatbotContext
  trace : List Nat

/-- The dispatcher's per-turn session mutation, lines 184–187 of
`Chatbot.ts`, applied to the freshly wrapped resolved document:
snapshot `ctx.session._previousNotUnderstand = ctx.session.consecutiveNotUnderstand`,
reset `ctx.session.consecutiveNotUnderstand = 0` (through the clamping
setter), then `session.messageCount++` (a dynamically attached, undeclared
slot, so the increment acts on `undefined`). -/
def dispatcherSessionUpdate (doc : SessionDoc) : Session :=
  let s0 := mkSession doc
  let s1 := { s0 with _previousNotUnderstand := JVal.jnum s0.consecutiveNotUnderstand }
  let s2 := Session.setConsecutiveNotUnderstand s1 0
  { s2 with messageCount := jsIncr s2.messageCount }

/-- `Chatbot.onMessage(message)`. With mongo enabled: resolve the session
via `findOrCreateById`, apply `dispatcherSessionUpdate`, save, and only
then run the chain; a rejection at any step settles the turn with that
error and skips everything after it. With mongo disabled: run the chain
directly, with no session on the context. -/
def onMessage (config : IChatbotConfig) (pipeline : List Nat) (fuel : Nat)
    (backend : Backend) (message : Message) : TurnOutcome :=
  if isMongoEnabled config then
    match backend.findOrCreateRes message.conversationId with
    | Except.error e =>
        { result := Except.error e
          ops := [StoreOp.findOrCreateOp message.conversationId]
          chainCtx := none
          trace := [] }
    | Except.ok doc =>
        match backend.saveRes (dispatcherSessionUpdate doc).document with
        | Except.error e =>
            { result := Except.error e
              ops := [StoreOp.findOrCreateOp message.conversationId,
                      StoreOp.saveOp (dispatcherSessionUpdate doc).document.conversationId]
              chainCtx := none
              trace := [] }
        | Except.ok _ =>
            { result := Except.ok ()
              ops := [StoreOp.findOrCreateOp message.conversationId,
                      StoreOp.saveOp (dispatcherSessionUpdate doc).document.conversationId]
              chainCtx := some { message := message, config := config,
                                 session := some (dispatcherSessionUpdate doc) }
              trace := (execNextMiddleware pipeline fuel 0).2 }
  else
    { result := Except.ok ()
      ops := []
      chainCtx := some { message := message, config := config, session := none }
      trace := (execNextMiddleware pipeline fuel 0).2 }

/-!
## The secondary entrypoint `Chatbot.botHostingEntrypoint`
-/

/-- JavaScript truthiness of an optional string field: `undefined` and the
empty string are falsy. -/
def jsTruthyStr : Option String → Bool
  | none => false
  | some s => !s.isEmpty

/-- The body handed to `botHostingEntrypoint`. -/
structure HostBody where
  message : Option String
  text : Option String

/-- `res.reply()` and `res.conversationToken` of the conversation returned
by `converseText`. -/
structure ConversationRes where
  replyVal : Option String
  conversationToken : String

/-- Externally observable events of one `botHostingEntrypoint` invocation,
in order. -/
inductive HostEvent where
  | onMessageCall : HostEvent
  | converseTextCall : String → HostEvent
  | callbackErr : String → HostEvent
  | callbackOk : String → String → HostEvent
deriving DecidableEq, Repr

/-- `Chatbot.botHostingEntrypoint(body, response, callback)`. `converse`
models `recastSdk.request.converseText`: it may reject (caught by the
`try`/`catch`, which reports the error through the callback) or resolve to
a conversation whose `reply()` may be absent or falsy. -/
def botHostingEntrypoint (body : HostBody)
    (converse : String → Except String ConversationRes) : List HostEvent :=
  if jsTruthyStr body.message then
    [HostEvent.onMessageCall, HostEvent.callbackOk "Bot answered :)" ""]
  else if jsTruthyStr body.text then
    let t := body.text.getD ""
    HostEvent.converseTextCall t ::
      (match converse t with
       | Except.error err => [HostEvent.callbackErr err]
       | Except.ok res =>
           match res.replyVal with
           | some r =>
               if r.isEmpty then [HostEvent.callbackOk "No reply :(" res.conversationToken]
               else [HostEvent.callbackOk r res.conversationToken]
           | none => [HostEvent.callbackOk "No reply :(" res.conversationToken])
  else
    [HostEvent.callbackErr "No text provided"]

/-!
## Structure of a chain execution

The shared index advances by exactly one each time a middleware is invoked,
and the middleware invoked at a step is the one at the current index, so a
chain execution started at index `i` visits exactly the consecutive indices
`i, i+1, ..., i+t-1` for some `t`, and ends with the index at `i + t`.
-/

theorem middlewareBody_range' (next : Nat → Nat × List Nat)
    (hnext : ∀ j, ∃ t, next j = (j + t, List.range' j t)) :
    ∀ k j : Nat, ∃ t, middlewareBody next k j = (j + t, List.range' j t)
  | 0, j => ⟨0, by simp [middlewareBody]⟩
  | k + 1, j => by
      obtain ⟨t1, h1⟩ := hnext j
      obtain ⟨t2, h2⟩ := middlewareBody_range' next hnext k (j + t1)
      refine ⟨t1 + t2, ?_⟩
      simp only [middlewareBody, h1, h2, List.range'_append_1, Prod.mk.injEq]
      constructor
      · omega
      · rw [Nat.add_comm t2 t1]

theorem execNextMiddleware_range' (p : List Nat) :
    ∀ fuel i : Nat, ∃ t, execNextMiddleware p fuel i = (i + t, List.range' i t)
  | 0, i => ⟨0, by simp [execNextMiddleware]⟩
  | fuel + 1, i => by
      cases h : p[i]? with
      | none => exact ⟨0, by simp [execNextMiddleware, h]⟩
      | some k =>
          obtain ⟨t, ht⟩ := middlewareBody_range' (execNextMiddleware p fuel)
            (execNextMiddleware_range' p fuel) k (i + 1)
          refine ⟨t + 1, ?_⟩
          simp only [execNextMiddleware, h, ht, List.range'_succ, Prod.mk.injEq]
          constructor
          · omega
          · trivial

/-- The branches of `onMessage` either skip the chain or run it from
index 0. -/
theorem onMessage_trace_cases (config : IChatbotConfig) (pipeline : List Nat)
    (fuel : Nat) (backend : Backend) (message : Message) :
    (onMessage config pipeline fuel backend message).trace = [] ∨
    (onMessage config pipeline fuel backend message).trace =
      (execNextMiddleware pipeline fuel 0).2 := by
  unfold onMessage
  split
  · split
    · exact Or.inl rfl
    · split
      · exact Or.inl rfl
      · exact Or.inr rfl
  · exact Or.inr rfl

/-- A nonempty pipeline's chain invokes middleware 0 first. -/
theorem execNextMiddleware_head (p : List Nat) (fuel : Nat) (hp : p ≠ []) :
    ((execNextMiddleware p (fuel + 1) 0).2).head? = some 0 := by
  cases p with
  | nil => exact absurd rfl hp
  | cons a as => simp [execNextMiddleware]

/-- C7. For every turn, however often each middleware invokes `next`, no
registered middleware runs more than once in that turn: every index occurs
at most once in the turn's invocation trace. The shared
`currentMiddlewareIndex` only ever advances, so a repeated `next` resumes
the chain where it stands instead of re-running anything. -/
theorem onMessage_middleware_at_most_once (config : IChatbotConfig)
    (pipeline : List Nat) (fuel : Nat) (backend : Backend) (message : Message)
    (j : Nat) :
    ((onMessage config pipeline fuel backend message).trace).count j ≤ 1 := by
  rcases onMessage_trace_cases config pipeline fuel backend message with h | h <;> rw [h]
  · simp
  · obtain ⟨t, ht⟩ := execNextMiddleware_range' pipeline fuel 0
    rw [ht]
    exact List.nodup_iff_count_le_one.mp (List.nodup_range' 0 t) j

/-- C6 counterexample. In the pipeline `[2, 0, 0]` the first middleware
invokes `next` twice and the second invokes it not at all; yet the third
middleware still runs in the same turn: after the second middleware
declines to call `next`, the first middleware's second `next` resumes the
chain at the advanced shared index and invokes the third middleware. So a
middleware that does not invoke `next` does not, in general, prevent all
subsequently registered middlewares from running. -/
theorem short_circuit_violated_cex :
    middlewareTrace [2, 0, 0] = [0, 1, 2] ∧
    [2, 0, 0][1]? = some 0 ∧
    (1 : Nat) ∈ middlewareTrace [2, 0, 0] ∧
    (2 : Nat) ∈ middlewareTrace [2, 0, 0] := by
  decide

/-- In a pipeline where every middleware invokes `next` at most once, no
middleware past a non-`next`-calling one is ever invoked. -/
theorem execNextMiddleware_shortCircuit (p : List Nat) (hp : ∀ k ∈ p, k ≤ 1)
    (j : Nat) (hj : p[j]? = some 0) :
    ∀ fuel i : Nat, i ≤ j → ∀ l ∈ (execNextMiddleware p fuel i).2, l ≤ j := by
  intro fuel
  induction fuel with
  | zero => intro i _ l hl; simp [execNextMiddleware] at hl
  | succ fuel ih =>
      intro i hij l hl
      simp only [execNextMiddleware] at hl
      cases h : p[i]? with
      | none => rw [h] at hl; simp at hl
      | some k =>
          rw [h] at hl
          have hk : k ≤ 1 := hp k (List.getElem?_mem h)
          match k, hk with
          | 0, _ =>
              simp [middlewareBody] at hl
              omega
          | 1, _ =>
              have hilt : i < j := by
                rcases Nat.lt_or_ge i j with hlt | hge
                · exact hlt
                · have : i = j := Nat.le_antisymm hij hge
                  subst this
                  rw [h] at hj
                  cases hj
              simp only [middlewareBody] at hl
              simp only [List.mem_cons, List.mem_append] at hl
              rcases hl with rfl | hl | hl
              · exact hij
              · exact ih (i + 1) hilt l hl
              · simp at hl

/-- C6 (amended). When every registered middleware invokes `next` at most
once, the middlewares of a turn run in registration order starting at index
0 (the trace is a consecutive run of indices from 0), and a middleware that
does not invoke `next` prevents every subsequently registered middleware
from running; in particular, with M1 (calls `next` once), M2 (does not call
`next`) and M3 registered in that order, one message runs exactly M1 then
M2, each once, and never M3. (Without the at-most-once restriction this
fails — see the counterexample.) -/
theorem middleware_order_and_short_circuit (pipeline : List Nat) (fuel j : Nat)
    (hp : ∀ k ∈ pipeline, k ≤ 1) (hj : pipeline[j]? = some 0) :
    (∃ t, (execNextMiddleware pipeline fuel 0).2 = List.range' 0 t) ∧
    (∀ l ∈ (execNextMiddleware pipeline fuel 0).2, l ≤ j) ∧
    middlewareTrace [1, 0, 0] = [0, 1] := by
  refine ⟨?_, ?_, by decide⟩
  · obtain ⟨t, ht⟩ := execNextMiddleware_range' pipeline fuel 0
    exact ⟨t, by rw [ht]⟩
  · exact execNextMiddleware_shortCircuit pipeline hp j hj fuel 0 (Nat.zero_le j)

/-- Witness for the amended C6 at the pipeline `[1, 0, 0]`. -/
theorem middleware_order_and_short_circuit_witness :
    ((∀ k ∈ [1, 0, 0], k ≤ 1) ∧ [1, 0, 0][1]? = some 0) ∧
    ((∃ t, (execNextMiddleware [1, 0, 0] 4 0).2 = List.range' 0 t) ∧
     (∀ l ∈ (execNextMiddleware [1, 0, 0] 4 0).2, l ≤ 1) ∧
     middlewareTrace [1, 0, 0] = [0, 1]) :=
  ⟨⟨by decide, by decide⟩,
   middleware_order_and_short_circuit [1, 0, 0] 4 1 (by decide) (by decide)⟩

/-!
## Claims about the session entity and the session store
-/

/-- C1 counterexample. The setter stores `Math.min(n, 2)` with no lower
bound: assigning `-1` stores `-1`, which lies outside `[0, 2]`, so a
negative assignment is neither rejected nor clamped up to 0. -/
theorem setter_negative_not_clamped_cex :
    (Session.setConsecutiveNotUnderstand
        (mkSession { conversationId := "c", consecutiveNotUnderstand := 0,
                     createdAt := none, updatedAt := none }) (-1)).consecutiveNotUnderstand
      = -1 ∧
    ¬ (0 ≤ (Session.setConsecutiveNotUnderstand
        (mkSession { conversationId := "c", consecutiveNotUnderstand := 0,
                     createdAt := none, updatedAt := none }) (-1)).consecutiveNotUnderstand) := by
  decide

/-- C1 (amended). Assigning `consecutiveNotUnderstand = n` stores exactly
`min(n, 2)`: values above 2 are clamped down to 2, but a negative value is
stored unchanged, so after a write the stored value is at most 2 yet need
not be non-negative. -/
theorem setter_stores_min_two (s : Session) (n : Int) :
    (Session.setConsecutiveNotUnderstand s n).consecutiveNotUnderstand = min n 2 ∧
    (Session.setConsecutiveNotUnderstand s n).consecutiveNotUnderstand ≤ 2 := by
  refine ⟨rfl, ?_⟩
  show min n 2 ≤ 2
  exact min_le_right n 2

/-- C5. `findOrCreateById` coincides with the composition "`findById`,
recovering from its not-found rejection by `create`"; and called twice
sequentially for a brand-new id it returns a Session both times (the second
call returning the very record the first call created), with exactly one
record for that id ever present in the store. -/
theorem findOrCreateById_recovery_and_idempotence (st : StoreState)
    (conversationId : String) (t1 t2 : Nat)
    (hnew : findOne st conversationId = none) :
    (∀ (st' : StoreState) (id' : String) (t' : Nat),
        Session.findOrCreateById st' id' t' = findOrCreateByIdViaFindById st' id' t') ∧
    (Session.findOrCreateById
        (Session.findOrCreateById st conversationId t1).2 conversationId t2).2
      = (Session.findOrCreateById st conversationId t1).2 ∧
    (Session.findOrCreateById
        (Session.findOrCreateById st conversationId t1).2 conversationId t2).1
      = (Session.findOrCreateById st conversationId t1).1 ∧
    countRecords (Session.findOrCreateById st conversationId t1).2 conversationId = 1 := by
  have hequiv : ∀ (st' : StoreState) (id' : String) (t' : Nat),
      Session.findOrCreateById st' id' t' = findOrCreateByIdViaFindById st' id' t' := by
    intro st' id' t'
    unfold Session.findOrCreateById findOrCreateByIdViaFindById Session.findById
    cases findOne st' id' <;> rfl
  have hnew' : st.records.find? (fun d => d.conversationId == conversationId) = none := hnew
  have hfilter : st.records.filter (fun d => d.conversationId == conversationId) = [] := by
    rw [List.filter_eq_nil_iff]
    intro a ha
    have := List.find?_eq_none.mp hnew' a ha
    simpa using this
  have hr1 : Session.findOrCreateById st conversationId t1
      = (mkSession { conversationId := conversationId, consecutiveNotUnderstand := 0,
                     createdAt := some t1, updatedAt := some t1 },
         { records := st.records ++
             [{ conversationId := conversationId, consecutiveNotUnderstand := 0,
                createdAt := some t1, updatedAt := some t1 }] }) := by
    unfold Session.findOrCreateById
    rw [hnew]
    rfl
  have hfound :
      findOne { records := st.records ++
          [{ conversationId := conversationId, consecutiveNotUnderstand := 0,
             createdAt := some t1, updatedAt := some t1 }] } conversationId
        = some { conversationId := conversationId, consecutiveNotUnderstand := 0,
                 createdAt := some t1, updatedAt := some t1 } := by
    unfold findOne
    rw [List.find?_append, hnew']
    simp [List.find?]
  have hr2 : Session.findOrCreateById
      { records := st.records ++
          [{ conversationId := conversationId, consecutiveNotUnderstand := 0,
             createdAt := some t1, updatedAt := some t1 }] } conversationId t2
      = (mkSession { conversationId := conversationId, consecutiveNotUnderstand := 0,
                     createdAt := some t1, updatedAt := some t1 },
         { records := st.records ++
             [{ conversationId := conversationId, consecutiveNotUnderstand := 0,
                createdAt := some t1, updatedAt := some t1 }] }) := by
    unfold Session.findOrCreateById
    rw [hfound]
  have hcount : countRecords
      { records := st.records ++
          [{ conversationId := conversationId, consecutiveNotUnderstand := 0,
             createdAt := some t1, updatedAt := some t1 }] } conversationId = 1 := by
    unfold countRecords
    rw [List.filter_append, hfilter]
    simp [List.filter]
  refine ⟨hequiv, ?_, ?_, ?_⟩
  · rw [hr1, hr2]
  · rw [hr1, hr2]
  · rw [hr1]
    exact hcount

/-- Witness for C5 on the empty store. -/
theorem findOrCreateById_recovery_and_idempotence_witness :
    (findOne { records := [] } "c1" = none) ∧
    (Session.findOrCreateById
        (Session.findOrCreateById { records := [] } "c1" 0).2 "c1" 1).2
      = (Session.findOrCreateById { records := [] } "c1" 0).2 ∧
    countRecords (Session.findOrCreateById { records := [] } "c1" 0).2 "c1" = 1 := by
  have h := findOrCreateById_recovery_and_idempotence { records := [] } "c1" 0 1 (by decide)
  exact ⟨by decide, h.2.1, h.2.2.2⟩

/-- C8 evidence. `save` persists the document's current field values and
returns the same wrapper, but it never touches the timestamps: the
`pre('save')` hook is an arrow function, so its `this` is the enclosing
module scope rather than the document being saved, `this._doc` is
undefined, and the hook's guard always fails. In particular `updatedAt` is
not set on a persist — only `create` ever sets the timestamps. -/
theorem save_never_refreshes_timestamps (s : Session) (st : StoreState) (now : Nat) :
    ((Session.save s st now).1).document.updatedAt = s.document.updatedAt ∧
    ((Session.save s st now).1).document.createdAt = s.document.createdAt ∧
    ((Session.save s st now).1).document = s.document := by
  exact ⟨rfl, rfl, rfl⟩

/-!
## Claims about the turn dispatcher
-/

/-- C3. With persistence enabled, when the dispatcher's persist of the
updated session rejects, the turn settles with exactly that persistence
error and the middleware chain never runs: no middleware is invoked for the
turn. -/
theorem onMessage_persist_failure_aborts_turn (config : IChatbotConfig)
    (pipeline : List Nat) (fuel : Nat) (backend : Backend) (message : Message)
    (doc : SessionDoc) (e : String)
    (hm : isMongoEnabled config = true)
    (hf : backend.findOrCreateRes message.conversationId = Except.ok doc)
    (hs : backend.saveRes (dispatcherSessionUpdate doc).document = Except.error e) :
    (onMessage config pipeline fuel backend message).result = Except.error e ∧
    (onMessage config pipeline fuel backend message).trace = [] := by
  unfold onMessage
  rw [hm, if_pos rfl]
  simp only [hf]
  simp [hs]

/-- Witness for C3. -/
theorem onMessage_persist_failure_aborts_turn_witness :
    (isMongoEnabled
        { requestToken := "t", language := Language.en,
          mongo := some { hostname := "h", database := "d", enabled := some true } } = true) ∧
    ((onMessage
        { requestToken := "t", language := Language.en,
          mongo := some { hostname := "h", database := "d", enabled := some true } }
        [1, 0] 3
        { findOrCreateRes := fun _ =>
            Except.ok { conversationId := "c1", consecutiveNotUnderstand := 2,
                        createdAt := some 0, updatedAt := some 0 }
          saveRes := fun _ => Except.error "PersistenceError" }
        { conversationId := "c1" }).result = Except.error "PersistenceError" ∧
     (onMessage
        { requestToken := "t", language := Language.en,
          mongo := some { hostname := "h", database := "d", enabled := some true } }
        [1, 0] 3
        { findOrCreateRes := fun _ =>
            Except.ok { conversationId := "c1", consecutiveNotUnderstand := 2,
                        createdAt := some 0, updatedAt := some 0 }
          saveRes := fun _ => Except.error "PersistenceError" }
        { conversationId := "c1" }).trace = []) :=
  ⟨rfl,
   onMessage_persist_failure_aborts_turn
     { requestToken := "t", language := Language.en,
       mongo := some { hostname := "h", database := "d", enabled := some true } }
     [1, 0] 3
     { findOrCreateRes := fun _ =>
         Except.ok { conversationId := "c1", consecutiveNotUnderstand := 2,
                     createdAt := some 0, updatedAt := some 0 }
       saveRes := fun _ => Except.error "PersistenceError" }
     { conversationId := "c1" }
     { conversationId := "c1", consecutiveNotUnderstand := 2,
       createdAt := some 0, updatedAt := some 0 }
     "PersistenceError" rfl rfl rfl⟩

/-- C4. With persistence enabled and a successful persist, the context
handed to the middleware chain — hence observed by the first middleware —
carries a session whose `_previousNotUnderstand` snapshot equals the stored
`consecutiveNotUnderstand` of the resolved document from immediately before
the dispatcher's reset, and whose `consecutiveNotUnderstand` is 0. -/
theorem onMessage_snapshot_observed_by_chain (config : IChatbotConfig)
    (pipeline : List Nat) (fuel : Nat) (backend : Backend) (message : Message)
    (doc : SessionDoc)
    (hm : isMongoEnabled config = true)
    (hf : backend.findOrCreateRes message.conversationId = Except.ok doc)
    (hs : backend.saveRes (dispatcherSessionUpdate doc).document = Except.ok ()) :
    ∃ ctx, (onMessage config pipeline fuel backend message).chainCtx = some ctx ∧
      ∃ s, ctx.session = some s ∧
        s._previousNotUnderstand = JVal.jnum doc.consecutiveNotUnderstand ∧
        s.consecutiveNotUnderstand = 0 := by
  unfold onMessage
  rw [hm, if_pos rfl]
  simp only [hf]
  simp only [hs]
  refine ⟨_, rfl, dispatcherSessionUpdate doc, rfl, rfl, ?_⟩
  show min 0 2 = (0 : Int)
  decide

/-- Witness for C4: a stored value of 2 entering the turn is seen as
`_previousNotUnderstand = 2` with `consecutiveNotUnderstand = 0`. -/
theorem onMessage_snapshot_observed_by_chain_witness :
    ∃ ctx,
      (onMessage
        { requestToken := "t", language := Language.en,
          mongo := some { hostname := "h", database := "d", enabled := some true } }
        [1, 0] 3
        { findOrCreateRes := fun _ =>
            Except.ok { conversationId := "c1", consecutiveNotUnderstand := 2,
                        createdAt := some 0, updatedAt := some 0 }
          saveRes := fun _ => Except.ok () }
        { conversationId := "c1" }).chainCtx = some ctx ∧
      ∃ s, ctx.session = some s ∧
        s._previousNotUnderstand = JVal.jnum 2 ∧
        s.consecutiveNotUnderstand = 0 :=
  onMessage_snapshot_observed_by_chain
    { requestToken := "t", language := Language.en,
      mongo := some { hostname := "h", database := "d", enabled := some true } }
    [1, 0] 3
    { findOrCreateRes := fun _ =>
        Except.ok { conversationId := "c1", consecutiveNotUnderstand := 2,
                    createdAt := some 0, updatedAt := some 0 }
      saveRes := fun _ => Except.ok () }
    { conversationId := "c1" }
    { conversationId := "c1", consecutiveNotUnderstand := 2,
      createdAt := some 0, updatedAt := some 0 }
    rfl rfl rfl

/-- C2 evidence. On a successful turn with persistence enabled, the
session's `messageCount` is `NaN`, not one greater than its previous value:
the `Session` class declares no `messageCount`, so `session.messageCount++`
increments the `undefined` value of a dynamically attached slot, and the
persisted schema (`SessionDoc`) has no `messageCount` field at all. -/
theorem onMessage_messageCount_is_nan (config : IChatbotConfig)
    (pipeline : List Nat) (fuel : Nat) (backend : Backend) (message : Message)
    (doc : SessionDoc)
    (hm : isMongoEnabled config = true)
    (hf : backend.findOrCreateRes message.conversationId = Except.ok doc)
    (hs : backend.saveRes (dispatcherSessionUpdate doc).document = Except.ok ()) :
    ∃ ctx, (onMessage config pipeline fuel backend message).chainCtx = some ctx ∧
      ∃ s, ctx.session = some s ∧
        s.messageCount = JVal.jnan ∧
        ∀ n : Int, s.messageCount ≠ JVal.jnum n := by
  unfold onMessage
  rw [hm, if_pos rfl]
  simp only [hf]
  simp only [hs]
  exact ⟨_, rfl, dispatcherSessionUpdate doc, rfl, rfl, fun n h => by cases h⟩

/-- Witness for C2's evidence theorem. -/
theorem onMessage_messageCount_is_nan_witness :
    ∃ ctx,
      (onMessage
        { requestToken := "t", language := Language.en,
          mongo := some { hostname := "h", database := "d", enabled := some true } }
        [1, 0] 3
        { findOrCreateRes := fun _ =>
            Except.ok { conversationId := "c1", consecutiveNotUnderstand := 1,
                        createdAt := some 0, updatedAt := some 0 }
          saveRes := fun _ => Except.ok () }
        { conversationId := "c1" }).chainCtx = some ctx ∧
      ∃ s, ctx.session = some s ∧
        s.messageCount = JVal.jnan ∧
        ∀ n : Int, s.messageCount ≠ JVal.jnum n :=
  onMessage_messageCount_is_nan
    { requestToken := "t", language := Language.en,
      mongo := some { hostname := "h", database := "d", enabled := some true } }
    [1, 0] 3
    { findOrCreateRes := fun _ =>
        Except.ok { conversationId := "c1", consecutiveNotUnderstand := 1,
                    createdAt := some 0, updatedAt := some 0 }
      saveRes := fun _ => Except.ok () }
    { conversationId := "c1" }
    { conversationId := "c1", consecutiveNotUnderstand := 1,
      createdAt := some 0, updatedAt := some 0 }
    rfl rfl rfl

/-- C9. With persistence disabled, `onMessage` issues no session-store
operation at all, the turn resolves, the chain runs exactly as the plain
chain executor does (with no session on its context), and a nonempty
pipeline's first middleware is indeed invoked. -/
theorem onMessage_disabled_skips_store (config : IChatbotConfig)
    (pipeline : List Nat) (fuel : Nat) (backend : Backend) (message : Message)
    (hm : isMongoEnabled config = false) :
    (onMessage config pipeline (fuel + 1) backend message).ops = [] ∧
    (onMessage config pipeline (fuel + 1) backend message).result = Except.ok () ∧
    (onMessage config pipeline (fuel + 1) backend message).trace =
      (execNextMiddleware pipeline (fuel + 1) 0).2 ∧
    (pipeline ≠ [] →
      ((onMessage config pipeline (fuel + 1) backend message).trace).head? = some 0) := by
  unfold onMessage
  rw [hm]
  refine ⟨rfl, rfl, rfl, fun hne => ?_⟩
  show ((execNextMiddleware pipeline (fuel + 1) 0).2).head? = some 0
  exact execNextMiddleware_head pipeline fuel hne

/-- Witness for C9. -/
theorem onMessage_disabled_skips_store_witness :
    (isMongoEnabled { requestToken := "t", language := Language.en } = false) ∧
    ((onMessage { requestToken := "t", language := Language.en } [1, 0] 3
        { findOrCreateRes := fun _ => Except.error "down"
          saveRes := fun _ => Except.error "down" }
        { conversationId := "c1" }).ops = [] ∧
     (onMessage { requestToken := "t", language := Language.en } [1, 0] 3
        { findOrCreateRes := fun _ => Except.error "down"
          saveRes := fun _ => Except.error "down" }
        { conversationId := "c1" }).result = Except.ok () ∧
     (onMessage { requestToken := "t", language := Language.en } [1, 0] 3
        { findOrCreateRes := fun _ => Except.error "down"
          saveRes := fun _ => Except.error "down" }
        { conversationId := "c1" }).trace = (execNextMiddleware [1, 0] 3 0).2 ∧
     (([1, 0] : List Nat) ≠ [] →
      ((onMessage { requestToken := "t", language := Language.en } [1, 0] 3
        { findOrCreateRes := fun _ => Except.error "down"
          saveRes := fun _ => Except.error "down" }
        { conversationId := "c1" }).trace).head? = some 0)) :=
  ⟨rfl,
   onMessage_disabled_skips_store { requestToken := "t", language := Language.en }
     [1, 0] 2
     { findOrCreateRes := fun _ => Except.error "down"
       saveRes := fun _ => Except.error "down" }
     { conversationId := "c1" } rfl⟩

/-- C10. When the body carries neither a truthy `message` nor a truthy
`text`, the entrypoint's only observable event is a single callback
invocation with the error value `'No text provided'`: `onMessage` is not
called and no converse-by-text request is made. -/
theorem botHostingEntrypoint_no_text (body : HostBody)
    (converse : String → Except String ConversationRes)
    (hm : jsTruthyStr body.message = false)
    (ht : jsTruthyStr body.text = false) :
    botHostingEntrypoint body converse = [HostEvent.callbackErr "No text provided"] ∧
    (botHostingEntrypoint body converse).count
      (HostEvent.callbackErr "No text provided") = 1 ∧
    HostEvent.onMessageCall ∉ botHostingEntrypoint body converse ∧
    (∀ t, HostEvent.converseTextCall t ∉ botHostingEntrypoint body converse) := by
  have h : botHostingEntrypoint body converse = [HostEvent.callbackErr "No text provided"] := by
    unfold botHostingEntrypoint
    rw [hm, ht]
    rfl
  rw [h]
  refine ⟨rfl, rfl, by simp, fun t => by simp⟩

/-- Witness for C10 on a body with absent `message` and empty `text`. -/
theorem botHostingEntrypoint_no_text_witness :
    (jsTruthyStr (none : Option String) = false ∧ jsTruthyStr (some "") = false) ∧
    (botHostingEntrypoint { message := none, text := some "" }
        (fun _ => Except.error "unreachable")
      = [HostEvent.callbackErr "No text provided"] ∧
     (botHostingEntrypoint { message := none, text := some "" }
        (fun _ => Except.error "unreachable")).count
        (HostEvent.callbackErr "No text provided") = 1 ∧
     HostEvent.onMessageCall ∉ botHostingEntrypoint { message := none, text := some "" }
        (fun _ => Except.error "unreachable") ∧
     (∀ t, HostEvent.converseTextCall t ∉
        botHostingEntrypoint { message := none, text := some "" }
          (fun _ => Except.error "unreachable"))) :=
  ⟨⟨rfl, rfl⟩,
   botHostingEntrypoint_no_text { message := none, text := some "" }
     (fun _ => Except.error "unreachable") rfl rfl⟩

end Jabba
